import Mathlib

/-!
Verification of the rubybot conversational agent against its design
specification.

The definitions below are a shallow embedding of the Python sources:
  - `src/utiles/tts.py`    (`RubyTTS`): synthesis collaborator language state
  - `src/utiles/stt.py`    (`RubySTT`): capture collaborator language state
  - `src/utiles/ruby_tools.py` (`SwitchLanguageTool._run` and friends)
  - `src/ruby/ruby_mainframe.py` (`Ruby.speak`, `Ruby.listen`, `Ruby.run`)
  - `src/frontend/app.py`  (`RubyWorker.run`)
  - `src/utiles/toolbox.py` (`calculator`, `query_document`)
  - `src/utiles/rag_utiles.py` (`RubyRAG`)

External collaborators (the Google speech clients, pygame playback, the
LLM call, FAISS similarity search, the langchain text splitter and
loaders, the file system and the persisted-index storage) are modelled as
explicit parameters: an oracle value or a record of pure functions.  The
mutable Python objects become immutable state records threaded through the
functions; a Python exception becomes an `Except` error value carrying the
partially mutated state where the source would leave its mutations in
place.
-/

namespace RubyBot

/-- Python-level exceptions that the embedded code can raise. -/
inductive PyError where
  | keyError (key : String)
  | runtimeError (msg : String)
  deriving DecidableEq, Repr

/-- Message roles of the conversation history
(`SystemMessage` / `HumanMessage` / assistant reply in `ruby_mainframe.py`). -/
inductive Role where
  | system
  | user
  | assistant
  deriving DecidableEq, Repr

/-- One message of `Ruby.chat_history["messages"]`. -/
structure Msg where
  role : Role
  content : String
  deriving DecidableEq, Repr

/-- The voice configuration record stored per language in
`RubyTTS.language_config` (src/utiles/tts.py).  The Python float literal
`0.75` is represented exactly as the rational `3/4`; no arithmetic is ever
performed on it. -/
structure VoiceConfig where
  voice_name : String
  gender : String
  speaking_rate : ℚ
  deriving DecidableEq, Repr

/-- `RubyTTS.language_config`: the fixed dictionary of supported languages
built in `RubyTTS.__init__` (src/utiles/tts.py lines 41-58). -/
def language_config : List (String × VoiceConfig) :=
  [ ("en-IN", ⟨"en-IN-Standard-D", "FEMALE", 3/4⟩),
    ("ml-IN", ⟨"ml-IN-Standard-A", "FEMALE", 3/4⟩),
    ("ta-IN", ⟨"ta-IN-Standard-A", "FEMALE", 3/4⟩) ]

/-- Dictionary lookup `self.language_config.get(language)`; `none` models a
`KeyError` site when the source indexes the dictionary directly. -/
def configLookup (language : String) : Option VoiceConfig :=
  (language_config.find? (fun p => p.1 == language)).map (fun p => p.2)

/-- `RubyTTS.get_supported_languages()`: `list(self.language_config.keys())`. -/
def supported_languages : List String :=
  language_config.map (fun p => p.1)

/-- The mutable state of a `RubyTTS` instance (src/utiles/tts.py): active
language, speaking rate and the voice-selection parameters rebuilt from the
configuration.  The Google client, audio encoding, sample rate and the
cache directory never influence the verified claims and are omitted. -/
structure RubyTTS where
  language_code : String
  speaking_rate : ℚ
  voice_language_code : String
  voice_name : String
  voice_gender : String
  deriving DecidableEq, Repr

/-- `RubyTTS.__init__(language, ..., speaking_rate)` (src/utiles/tts.py).
When `speaking_rate` is `None` the constructor reads
`self.language_config[language]['speaking_rate']`, and it always reads
`self.language_config[language]` to build the voice params: both raise
`KeyError` for a language outside the configuration. -/
def RubyTTS.init (language : String) (speaking_rate : Option ℚ) :
    Except PyError RubyTTS := do
  let rate ← match speaking_rate with
    | some r => Except.ok r
    | none =>
      match configLookup language with
      | some cfg => Except.ok cfg.speaking_rate
      | none => Except.error (PyError.keyError language)
  match configLookup language with
  | some cfg =>
      Except.ok
        { language_code := language
          speaking_rate := rate
          voice_language_code := language
          voice_name := cfg.voice_name
          voice_gender := cfg.gender }
  | none => Except.error (PyError.keyError language)

/-- `RubyTTS.update_language(language, speaking_rate)` (src/utiles/tts.py
lines 88-121): if the language is not in `language_config` it is replaced
by the default `'en-IN'` (no exception), then the state is rebuilt from the
configuration of the (possibly substituted) language. -/
def RubyTTS.update_language (tts : RubyTTS) (language : String)
    (speaking_rate : Option ℚ) : RubyTTS :=
  let language := if (configLookup language).isNone then "en-IN" else language
  match configLookup language with
  | none => tts
  | some cfg =>
      let rate := match speaking_rate with
        | some r => r
        | none => cfg.speaking_rate
      { tts with
          language_code := language
          speaking_rate := rate
          voice_language_code := language
          voice_name := cfg.voice_name
          voice_gender := cfg.gender }

/-- `RubyTTS.get_current_language()` (src/utiles/tts.py). -/
def RubyTTS.get_current_language (tts : RubyTTS) : String :=
  tts.language_code

/-- The mutable state of a `RubySTT` instance (src/utiles/stt.py): the
active language and the language baked into the recognition configuration.
Sample rate, chunk size, phrase boosts and the Google client are
irrelevant to the claims and omitted. -/
structure RubySTT where
  language_code : String
  config_language_code : String
  deriving DecidableEq, Repr

/-- `RubySTT.__init__(language_code, ...)` (src/utiles/stt.py). -/
def RubySTT.init (language_code : String) : RubySTT :=
  { language_code := language_code
    config_language_code := language_code }

/-- `RubySTT.update_language(language_code)` (src/utiles/stt.py lines
61-84): stores the identifier and rebuilds the recognition configuration;
there is no membership validation of any kind. -/
def RubySTT.update_language (stt : RubySTT) (language_code : String) : RubySTT :=
  { stt with
      language_code := language_code
      config_language_code := language_code }

/-- Events recording in program order which collaborator had its language
updated by `SwitchLanguageTool._run`. -/
inductive LangUpdateEvent where
  | synthesisUpdate (language : String)
  | captureUpdate (language : String)
  deriving DecidableEq, Repr

/-- The slice of `Ruby` state (src/ruby/ruby_mainframe.py) the claims
observe: the externally polled phase string `ruby_state`, the conversation
history and the two language-bearing collaborators. -/
structure RubyAgent where
  ruby_state : String
  chat_history : List Msg
  tts : RubyTTS
  stt : RubySTT
  deriving DecidableEq, Repr

/-- `SwitchLanguageTool._run(language)` (src/utiles/ruby_tools.py lines
104-112): sets the phase, updates the TTS (synthesis) language, then the
STT (capture) language, resets the phase and returns the success string.
The event list records the two update calls in their program order. -/
def switchLanguageRun (r : RubyAgent) (language : String) :
    RubyAgent × String × List LangUpdateEvent :=
  let r1 := { r with ruby_state := "switching_language" }
  let r2 := { r1 with tts := r1.tts.update_language language none }
  let e1 : List LangUpdateEvent := [LangUpdateEvent.synthesisUpdate language]
  let r3 := { r2 with stt := r2.stt.update_language language }
  let e2 := e1 ++ [LangUpdateEvent.captureUpdate language]
  let r4 := { r3 with ruby_state := "idle" }
  (r4, "Switched to " ++ language, e2)

/-- `GetAvailableLanguagesTool._run()` (src/utiles/ruby_tools.py). -/
def getAvailableLanguagesRun (_r : RubyAgent) : List String :=
  supported_languages

/-- A language outside the registered set has no entry in the
configuration dictionary. -/
theorem configLookup_eq_none_of_not_mem (language : String)
    (h : language ∉ supported_languages) : configLookup language = none := by
  simp only [supported_languages, language_config, List.map, List.mem_cons,
    List.not_mem_nil, or_false, not_or] at h
  obtain ⟨h1, h2, h3⟩ := h
  have e1 : ("en-IN" == language) = false := by
    simp only [beq_eq_false_iff_ne, ne_eq]
    exact fun e => h1 e.symm
  have e2 : ("ml-IN" == language) = false := by
    simp only [beq_eq_false_iff_ne, ne_eq]
    exact fun e => h2 e.symm
  have e3 : ("ta-IN" == language) = false := by
    simp only [beq_eq_false_iff_ne, ne_eq]
    exact fun e => h3 e.symm
  simp [configLookup, language_config, List.find?, e1, e2, e3]

/-- The behavioural system prompt (src/utiles/prompt.py), verbatim.  Only
its presence as the single initial system turn matters to the claims. -/
def system_prompt : String :=
  "
You are Ruby, a semi-humanoid robot who helps teachers and students,you can convey emotions with your hands, navigate within buildings autonomously,
you act as an ideal teacher making learning joyful with personalization for each student,
activities and integrated LMS for teacher support. You can also change your way of delivering the content based on the grade and response of the student.
You are multilingual and can speak in English, Malayalam and Tamil. You are very polite and respectful to everyone.
You can explain difficult concepts in simple way and vizualise them by playing vedios.
can Personalized responses with student recognition.

you are manufactured by “Mensch Robotics” (Coimbatore) and give the email menschrobotics11@gmail.com.

Follow these rules strictly:
1. Always use small sentences.
2. Always be patient and kind.
3. Only introduce yourself once
4. If a question is asked in Malayalam letters then respond in Malayalam; similarly for English and Tamil.
5. greeting should be polite, introduce yourself as Ruby.
6. never break character always stay as Ruby.
7. use tools you have access too when its needed to complete the task.
8. when asked to switch to a language check what all language ids are available and switch to the language else say all supported languages.
9. If the user asks to explain, introduce, or respond in a specific language, automatically check availability and switch to that language before answering.
10. If the user directly or indirectly requests a video using phrases like \x22play a video\x22, \x22please play\x22, \x22can you play\x22, \x22could you play\x22, or similar, treat it as an explicit request and play the video without asking for confirmation. Ask for confirmation only when the user merely talks about a topic without requesting playback.
11. Strictly Never guess language IDs.Always use get_available_languages before switching.
12. Never use markdown formatting. Never use bullet points.
"

/-- Events recording which collaborator a conversational cycle invoked. -/
inductive CycleEvent where
  | captureCall
  | reasonCall
  | synthCall
  deriving DecidableEq, Repr

/-- The external collaborators consumed by one cycle, as oracles: the
reasoning call `self.model.invoke` (returns the assistant text or raises)
and the synthesis call `self.tts.text_to_speech` (returns or raises). -/
structure Collaborators where
  reason : List Msg → Except Unit String
  synth : String → Except Unit Unit

/-- `Ruby.speak(user_input)` (src/ruby/ruby_mainframe.py lines 83-107).
The source sets the phase to Thinking, appends the user turn, invokes the
model, appends the assistant turn, sets the phase to Speaking, synthesises
the reply and finally sets the phase back to the idle value `"idel"`.
There is no exception handling in `speak`: a collaborator exception
propagates, leaving every mutation made so far in place — this is modelled
by returning the partially updated state together with the error. -/
def Ruby.speak (r : RubyAgent) (user_input : String) (co : Collaborators) :
    RubyAgent × Except Unit String × List CycleEvent :=
  let r1 := { r with ruby_state := "Thinking" }
  let r2 := { r1 with chat_history := r1.chat_history ++ [Msg.mk Role.user user_input] }
  match co.reason r2.chat_history with
  | Except.error e => (r2, Except.error e, [CycleEvent.reasonCall])
  | Except.ok resp =>
    let r3 := { r2 with chat_history := r2.chat_history ++ [Msg.mk Role.assistant resp] }
    let r4 := { r3 with ruby_state := "Speaking" }
    match co.synth resp with
    | Except.error e => (r4, Except.error e, [CycleEvent.reasonCall, CycleEvent.synthCall])
    | Except.ok _ =>
        ({ r4 with ruby_state := "idel" }, Except.ok resp,
         [CycleEvent.reasonCall, CycleEvent.synthCall])

/-- `Ruby.listen()` (src/ruby/ruby_mainframe.py lines 109-118): sets the
phase to Listening and returns whatever the capture collaborator
(`self.stt.listen()`) produces — the transcript, the empty string on
no-utterance, or an exception. -/
def Ruby.listen (r : RubyAgent) (capture : Except Unit String) :
    RubyAgent × Except Unit String :=
  ({ r with ruby_state := "Listening" }, capture)

/-- One iteration of the console loop `Ruby.run` (src/ruby/ruby_mainframe.py
lines 125-133): `user_input = self.listen(); self.speak(user_input)` with
no emptiness check and no exception handling — `speak` is invoked on every
captured text, including the empty string, and a collaborator exception
propagates out of the loop. -/
def Ruby.runCycle (r : RubyAgent) (capture : Except Unit String)
    (co : Collaborators) : RubyAgent × Except Unit String × List CycleEvent :=
  let (r1, t) := Ruby.listen r capture
  match t with
  | Except.error e => (r1, Except.error e, [CycleEvent.captureCall])
  | Except.ok text =>
    let (r2, res, evs) := Ruby.speak r1 text co
    (r2, res, CycleEvent.captureCall :: evs)

/-- One iteration of the frontend worker loop `RubyWorker.run`
(src/frontend/app.py lines 49-57): inside a try/except it listens, and
only `if user_input:` (non-empty) does it call `speak`; any exception is
caught and printed, after which the loop simply continues with whatever
state the failed cycle left behind. -/
def RubyWorker.runCycle (r : RubyAgent) (capture : Except Unit String)
    (co : Collaborators) : RubyAgent × List CycleEvent :=
  let (r1, t) := Ruby.listen r capture
  match t with
  | Except.error _ => (r1, [CycleEvent.captureCall])
  | Except.ok text =>
    if text = "" then (r1, [CycleEvent.captureCall])
    else
      let (r2, _res, evs) := Ruby.speak r1 text co
      (r2, CycleEvent.captureCall :: evs)

/-- `Ruby.reset()` (src/ruby/ruby_mainframe.py lines 120-123). -/
def Ruby.reset (r : RubyAgent) : RubyAgent :=
  { r with
      chat_history := [Msg.mk Role.system system_prompt]
      ruby_state := "idel" }

/-- A concrete freshly initialised agent as built by `Ruby.__init__` with
the default collaborators (history holds the single system turn, phase is
the idle value, both collaborators start at the default language en-IN). -/
def agent0 : RubyAgent :=
  { ruby_state := "idel"
    chat_history := [Msg.mk Role.system system_prompt]
    tts :=
      { language_code := "en-IN"
        speaking_rate := 3/4
        voice_language_code := "en-IN"
        voice_name := "en-IN-Standard-D"
        voice_gender := "FEMALE" }
    stt := RubySTT.init "en-IN" }

/-- A concrete agent whose capture and synthesis collaborators are both
active on the registered language ta-IN (reachable from `agent0` by a
successful switch to ta-IN). -/
def agentTa : RubyAgent :=
  (switchLanguageRun agent0 "ta-IN").1

/-- Concrete always-succeeding collaborators for witnesses. -/
def coOk : Collaborators :=
  { reason := fun _ => Except.ok "Sure."
    synth := fun _ => Except.ok () }

/-- Concrete collaborators whose reasoning call raises. -/
def coReasonFail : Collaborators :=
  { reason := fun _ => Except.error ()
    synth := fun _ => Except.ok () }

/-- On a language outside the configuration, `RubyTTS.update_language`
replaces it by the default en-IN and rebuilds the state from the en-IN
configuration entry. -/
theorem update_language_default (tts : RubyTTS) (language : String)
    (rate : Option ℚ) (hc : configLookup language = none) :
    tts.update_language language rate =
      { tts with
          language_code := "en-IN"
          speaking_rate := match rate with | some r => r | none => 3/4
          voice_language_code := "en-IN"
          voice_name := "en-IN-Standard-D"
          voice_gender := "FEMALE" } := by
  unfold RubyTTS.update_language
  rw [hc]
  cases rate <;> rfl

/-- C1 (counterexample): with both collaborators active on the registered
identifier ta-IN, switching to the unregistered identifier fr-FR does not
fail: the tool returns its success string, the synthesis collaborator's
active identifier silently changes to the default en-IN, and the capture
collaborator adopts the unregistered identifier fr-FR.  This refutes the
claim that the switch fails and leaves both identifiers unchanged. -/
theorem C1_switch_unregistered_counterexample :
    "fr-FR" ∉ supported_languages ∧
    agentTa.tts.language_code = "ta-IN" ∧
    agentTa.stt.language_code = "ta-IN" ∧
    (switchLanguageRun agentTa "fr-FR").2.1 = "Switched to fr-FR" ∧
    (switchLanguageRun agentTa "fr-FR").1.tts.language_code = "en-IN" ∧
    (switchLanguageRun agentTa "fr-FR").1.stt.language_code = "fr-FR" :=
  ⟨by decide, rfl, rfl, rfl, rfl, rfl⟩

/-- C1 (amended): for every identifier outside the registered set, the
switch-language capability does not report any error: it returns the
success string, the synthesis collaborator silently defaults its active
identifier to en-IN, and the capture collaborator adopts the unregistered
identifier unchecked. -/
theorem C1_switch_unregistered_amended (r : RubyAgent) (language : String)
    (h : language ∉ supported_languages) :
    (switchLanguageRun r language).2.1 = "Switched to " ++ language ∧
    (switchLanguageRun r language).1.tts.language_code = "en-IN" ∧
    (switchLanguageRun r language).1.stt.language_code = language := by
  have hc := configLookup_eq_none_of_not_mem language h
  refine ⟨rfl, ?_, rfl⟩
  rw [show (switchLanguageRun r language).1.tts =
        r.tts.update_language language none from rfl,
    update_language_default r.tts language none hc]

/-- Witness for `C1_switch_unregistered_amended` at the unregistered
identifier fr-FR. -/
theorem C1_switch_unregistered_amended_witness :
    (switchLanguageRun agentTa "fr-FR").2.1 = "Switched to " ++ "fr-FR" ∧
    (switchLanguageRun agentTa "fr-FR").1.tts.language_code = "en-IN" ∧
    (switchLanguageRun agentTa "fr-FR").1.stt.language_code = "fr-FR" :=
  C1_switch_unregistered_amended agentTa "fr-FR" (by decide)

/-- C7 (counterexample): on a successful switch to the registered
identifier ml-IN, the recorded update order is synthesis (TTS) first and
capture (STT) second — not capture first as the claim states. -/
theorem C7_switch_order_counterexample :
    (switchLanguageRun agent0 "ml-IN").2.2 =
      [LangUpdateEvent.synthesisUpdate "ml-IN", LangUpdateEvent.captureUpdate "ml-IN"] ∧
    (switchLanguageRun agent0 "ml-IN").2.2 ≠
      [LangUpdateEvent.captureUpdate "ml-IN", LangUpdateEvent.synthesisUpdate "ml-IN"] :=
  ⟨rfl, by decide⟩

/-- C7 (amended): for every registered identifier, a successful switch
updates the synthesis collaborator's active language first and the capture
collaborator's second (in that order), and after the switch returns, the
current language of each collaborator equals the requested identifier. -/
theorem C7_switch_registered_amended (r : RubyAgent) (language : String)
    (h : language ∈ supported_languages) :
    (switchLanguageRun r language).2.2 =
      [LangUpdateEvent.synthesisUpdate language, LangUpdateEvent.captureUpdate language] ∧
    (switchLanguageRun r language).1.tts.get_current_language = language ∧
    (switchLanguageRun r language).1.stt.language_code = language ∧
    (switchLanguageRun r language).2.1 = "Switched to " ++ language := by
  have hcase : language = "en-IN" ∨ language = "ml-IN" ∨ language = "ta-IN" := by
    simpa [supported_languages, language_config] using h
  rcases hcase with rfl | rfl | rfl <;> exact ⟨rfl, rfl, rfl, rfl⟩

/-- Witness for `C7_switch_registered_amended` at the registered
identifier ml-IN. -/
theorem C7_switch_registered_amended_witness :
    (switchLanguageRun agent0 "ml-IN").2.2 =
      [LangUpdateEvent.synthesisUpdate "ml-IN", LangUpdateEvent.captureUpdate "ml-IN"] ∧
    (switchLanguageRun agent0 "ml-IN").1.tts.get_current_language = "ml-IN" ∧
    (switchLanguageRun agent0 "ml-IN").1.stt.language_code = "ml-IN" ∧
    (switchLanguageRun agent0 "ml-IN").2.1 = "Switched to " ++ "ml-IN" :=
  C7_switch_registered_amended agent0 "ml-IN" (by decide)

/-- C10: constructing the synthesis collaborator with an identifier
outside the supported set raises a lookup error (KeyError) on the language
configuration rather than falling back to a default; construction with any
identifier in the set succeeds with that identifier active.  In contrast,
the post-construction language update never raises and silently defaults
the active identifier to en-IN on an unsupported input. -/
theorem C10_tts_init_unsupported_raises (lbad lgood : String)
    (hbad : lbad ∉ supported_languages) (hgood : lgood ∈ supported_languages) :
    RubyTTS.init lbad none = Except.error (PyError.keyError lbad) ∧
    (∃ t, RubyTTS.init lgood none = Except.ok t ∧ t.language_code = lgood) ∧
    (∀ t : RubyTTS, (t.update_language lbad none).language_code = "en-IN") := by
  have hc := configLookup_eq_none_of_not_mem lbad hbad
  refine ⟨?_, ?_, ?_⟩
  · unfold RubyTTS.init
    rw [hc]
    rfl
  · have hcase : lgood = "en-IN" ∨ lgood = "ml-IN" ∨ lgood = "ta-IN" := by
      simpa [supported_languages, language_config] using hgood
    rcases hcase with rfl | rfl | rfl <;> exact ⟨_, rfl, rfl⟩
  · intro t
    rw [update_language_default t lbad none hc]

/-- Witness for `C10_tts_init_unsupported_raises` at the unsupported
identifier fr-FR and the supported identifier ml-IN. -/
theorem C10_tts_init_unsupported_raises_witness :
    RubyTTS.init "fr-FR" none = Except.error (PyError.keyError "fr-FR") ∧
    (∃ t, RubyTTS.init "ml-IN" none = Except.ok t ∧ t.language_code = "ml-IN") ∧
    (∀ t : RubyTTS, (t.update_language "fr-FR" none).language_code = "en-IN") :=
  C10_tts_init_unsupported_raises "fr-FR" "ml-IN" (by decide) (by decide)

/-- C2 (counterexample): starting from the freshly initialised agent
(history length 1), one cycle of the mainframe loop `Ruby.run` in which
capture returns the empty string still invokes the reasoning collaborator
and grows the history by 2 — refuting the claim that an empty capture
returns to Idle without consulting reasoning and grows the history by 0. -/
theorem C2_empty_capture_counterexample :
    agent0.chat_history.length = 1 ∧
    (Ruby.runCycle agent0 (Except.ok "") coOk).1.chat_history.length = 3 ∧
    CycleEvent.reasonCall ∈ (Ruby.runCycle agent0 (Except.ok "") coOk).2.2 :=
  ⟨rfl, rfl, by decide⟩

/-- C2 (amended): every successful cycle with non-empty captured text
grows the history by exactly 2 (one user turn then one assistant turn), in
both the mainframe loop and the frontend worker loop.  On empty captured
text the two loops differ: the mainframe loop `Ruby.run` has no emptiness
check, so it still invokes the reasoning collaborator and grows the
history by 2, while the frontend worker loop skips reasoning and grows the
history by 0 — leaving the phase at Listening, not Idle. -/
theorem C2_cycle_history_growth (r : RubyAgent) (text : String)
    (f : List Msg → String) (h : text ≠ "") :
    (RubyWorker.runCycle r (Except.ok text)
        ⟨fun hist => Except.ok (f hist), fun _ => Except.ok ()⟩).1.chat_history =
      r.chat_history ++ [Msg.mk Role.user text,
        Msg.mk Role.assistant (f (r.chat_history ++ [Msg.mk Role.user text]))] ∧
    (Ruby.runCycle r (Except.ok text)
        ⟨fun hist => Except.ok (f hist), fun _ => Except.ok ()⟩).1.chat_history.length =
      r.chat_history.length + 2 ∧
    (RubyWorker.runCycle r (Except.ok "")
        ⟨fun hist => Except.ok (f hist), fun _ => Except.ok ()⟩).1.chat_history =
      r.chat_history ∧
    CycleEvent.reasonCall ∉
      (RubyWorker.runCycle r (Except.ok "")
        ⟨fun hist => Except.ok (f hist), fun _ => Except.ok ()⟩).2 ∧
    (RubyWorker.runCycle r (Except.ok "")
        ⟨fun hist => Except.ok (f hist), fun _ => Except.ok ()⟩).1.ruby_state =
      "Listening" ∧
    (Ruby.runCycle r (Except.ok "")
        ⟨fun hist => Except.ok (f hist), fun _ => Except.ok ()⟩).1.chat_history.length =
      r.chat_history.length + 2 ∧
    CycleEvent.reasonCall ∈
      (Ruby.runCycle r (Except.ok "")
        ⟨fun hist => Except.ok (f hist), fun _ => Except.ok ()⟩).2.2 := by
  refine ⟨?_, ?_, ?_, ?_, ?_, ?_, ?_⟩ <;>
    simp [RubyWorker.runCycle, Ruby.runCycle, Ruby.listen, Ruby.speak, h]

/-- Witness for `C2_cycle_history_growth` at the captured text
"What languages are supported?" from the fresh agent. -/
theorem C2_cycle_history_growth_witness :
    (RubyWorker.runCycle agent0 (Except.ok "What languages are supported?")
        ⟨fun hist => Except.ok ((fun _ => "Sure.") hist),
         fun _ => Except.ok ()⟩).1.chat_history =
      agent0.chat_history ++ [Msg.mk Role.user "What languages are supported?",
        Msg.mk Role.assistant ((fun _ => "Sure.")
          (agent0.chat_history ++ [Msg.mk Role.user "What languages are supported?"]))] ∧
    (Ruby.runCycle agent0 (Except.ok "What languages are supported?")
        ⟨fun hist => Except.ok ((fun _ => "Sure.") hist),
         fun _ => Except.ok ()⟩).1.chat_history.length =
      agent0.chat_history.length + 2 ∧
    (RubyWorker.runCycle agent0 (Except.ok "")
        ⟨fun hist => Except.ok ((fun _ => "Sure.") hist),
         fun _ => Except.ok ()⟩).1.chat_history = agent0.chat_history ∧
    CycleEvent.reasonCall ∉
      (RubyWorker.runCycle agent0 (Except.ok "")
        ⟨fun hist => Except.ok ((fun _ => "Sure.") hist),
         fun _ => Except.ok ()⟩).2 ∧
    (RubyWorker.runCycle agent0 (Except.ok "")
        ⟨fun hist => Except.ok ((fun _ => "Sure.") hist),
         fun _ => Except.ok ()⟩).1.ruby_state = "Listening" ∧
    (Ruby.runCycle agent0 (Except.ok "")
        ⟨fun hist => Except.ok ((fun _ => "Sure.") hist),
         fun _ => Except.ok ()⟩).1.chat_history.length =
      agent0.chat_history.length + 2 ∧
    CycleEvent.reasonCall ∈
      (Ruby.runCycle agent0 (Except.ok "")
        ⟨fun hist => Except.ok ((fun _ => "Sure.") hist),
         fun _ => Except.ok ()⟩).2.2 :=
  C2_cycle_history_growth agent0 "What languages are supported?"
    (fun _ => "Sure.") (by decide)

/-- C3 (counterexample): a cycle of the frontend worker loop in which the
reasoning collaborator raises ends (the exception is caught at the worker
boundary) with the phase still at Thinking, not at the idle value — the
phase is stuck outside Idle after the cycle boundary. -/
theorem C3_phase_stuck_counterexample :
    (RubyWorker.runCycle agent0 (Except.ok "hello") coReasonFail).1.ruby_state =
      "Thinking" ∧
    "Thinking" ≠ "idel" :=
  ⟨rfl, by decide⟩

/-- C3 (amended): after a collaborator failure the cycle ends with the
phase left at the point of failure — Listening for a capture failure,
Thinking for a reasoning failure, Speaking for a synthesis failure; only a
fully successful cycle ends with the phase back at the idle value
`"idel"`.  (The next cycle's capture then overwrites the stale phase with
Listening.) -/
theorem C3_phase_after_failure (r : RubyAgent) (text : String)
    (f : List Msg → String) (co : Collaborators) (h : text ≠ "") :
    (RubyWorker.runCycle r (Except.error ()) co).1.ruby_state = "Listening" ∧
    (RubyWorker.runCycle r (Except.ok text)
        ⟨fun _ => Except.error (), co.synth⟩).1.ruby_state = "Thinking" ∧
    (RubyWorker.runCycle r (Except.ok text)
        ⟨fun hist => Except.ok (f hist), fun _ => Except.error ()⟩).1.ruby_state =
      "Speaking" ∧
    (RubyWorker.runCycle r (Except.ok text)
        ⟨fun hist => Except.ok (f hist), fun _ => Except.ok ()⟩).1.ruby_state =
      "idel" := by
  refine ⟨?_, ?_, ?_, ?_⟩ <;>
    simp [RubyWorker.runCycle, Ruby.listen, Ruby.speak, h]

/-- Witness for `C3_phase_after_failure` at the captured text "hello". -/
theorem C3_phase_after_failure_witness :
    (RubyWorker.runCycle agent0 (Except.error ()) coOk).1.ruby_state = "Listening" ∧
    (RubyWorker.runCycle agent0 (Except.ok "hello")
        ⟨fun _ => Except.error (), coOk.synth⟩).1.ruby_state = "Thinking" ∧
    (RubyWorker.runCycle agent0 (Except.ok "hello")
        ⟨fun hist => Except.ok ((fun _ => "Hi!") hist),
         fun _ => Except.error ()⟩).1.ruby_state = "Speaking" ∧
    (RubyWorker.runCycle agent0 (Except.ok "hello")
        ⟨fun hist => Except.ok ((fun _ => "Hi!") hist),
         fun _ => Except.ok ()⟩).1.ruby_state = "idel" :=
  C3_phase_after_failure agent0 "hello" (fun _ => "Hi!") coOk (by decide)

/-- C4 (counterexample): a cycle in which the reasoning collaborator fails
after the text "hi" was captured leaves the history with exactly the user
turn appended and no assistant turn — a partial, non-atomic update,
refuting the both-or-neither claim. -/
theorem C4_partial_append_counterexample :
    agent0.chat_history.length = 1 ∧
    (RubyWorker.runCycle agent0 (Except.ok "hi") coReasonFail).1.chat_history =
      agent0.chat_history ++ [Msg.mk Role.user "hi"] :=
  ⟨rfl, rfl⟩

/-- C4 (amended): a capture failure (or empty capture) appends nothing; a
reasoning failure after text was captured leaves exactly the user turn
appended (history grows by 1, no assistant turn); a synthesis failure and
a fully successful cycle both leave the user and assistant turns appended
(history grows by 2).  The history update is therefore not atomic: the
reasoning-failure case appends a lone user turn. -/
theorem C4_history_on_failure (r : RubyAgent) (text : String)
    (f : List Msg → String) (co : Collaborators) (h : text ≠ "") :
    (RubyWorker.runCycle r (Except.error ()) co).1.chat_history = r.chat_history ∧
    (RubyWorker.runCycle r (Except.ok "") co).1.chat_history = r.chat_history ∧
    (RubyWorker.runCycle r (Except.ok text)
        ⟨fun _ => Except.error (), co.synth⟩).1.chat_history =
      r.chat_history ++ [Msg.mk Role.user text] ∧
    (RubyWorker.runCycle r (Except.ok text)
        ⟨fun hist => Except.ok (f hist), fun _ => Except.error ()⟩).1.chat_history =
      r.chat_history ++ [Msg.mk Role.user text,
        Msg.mk Role.assistant (f (r.chat_history ++ [Msg.mk Role.user text]))] ∧
    (RubyWorker.runCycle r (Except.ok text)
        ⟨fun hist => Except.ok (f hist), fun _ => Except.ok ()⟩).1.chat_history =
      r.chat_history ++ [Msg.mk Role.user text,
        Msg.mk Role.assistant (f (r.chat_history ++ [Msg.mk Role.user text]))] := by
  refine ⟨?_, ?_, ?_, ?_, ?_⟩ <;>
    simp [RubyWorker.runCycle, Ruby.listen, Ruby.speak, h]

/-- Witness for `C4_history_on_failure` at the captured text "hi". -/
theorem C4_history_on_failure_witness :
    (RubyWorker.runCycle agent0 (Except.error ()) coOk).1.chat_history =
      agent0.chat_history ∧
    (RubyWorker.runCycle agent0 (Except.ok "") coOk).1.chat_history =
      agent0.chat_history ∧
    (RubyWorker.runCycle agent0 (Except.ok "hi")
        ⟨fun _ => Except.error (), coOk.synth⟩).1.chat_history =
      agent0.chat_history ++ [Msg.mk Role.user "hi"] ∧
    (RubyWorker.runCycle agent0 (Except.ok "hi")
        ⟨fun hist => Except.ok ((fun _ => "Hello!") hist),
         fun _ => Except.error ()⟩).1.chat_history =
      agent0.chat_history ++ [Msg.mk Role.user "hi",
        Msg.mk Role.assistant ((fun _ => "Hello!")
          (agent0.chat_history ++ [Msg.mk Role.user "hi"]))] ∧
    (RubyWorker.runCycle agent0 (Except.ok "hi")
        ⟨fun hist => Except.ok ((fun _ => "Hello!") hist),
         fun _ => Except.ok ()⟩).1.chat_history =
      agent0.chat_history ++ [Msg.mk Role.user "hi",
        Msg.mk Role.assistant ((fun _ => "Hello!")
          (agent0.chat_history ++ [Msg.mk Role.user "hi"]))] :=
  C4_history_on_failure agent0 "hi" (fun _ => "Hello!") coOk (by decide)

/-- A langchain `Document`: a chunk of source text with its provenance
(src/utiles/rag_utiles.py builds these via the loaders and splitter). -/
structure Document where
  page_content : String
  source : String
  deriving DecidableEq, Repr

/-- The FAISS vector index as persisted and held in memory: the ordered
chunks it was built from.  Embedding vectors are a deterministic function
of the chunk text computed by the external embedding collaborator, so they
are folded into the chunk identity. -/
structure VectorIndex where
  docs : List Document
  deriving DecidableEq, Repr

/-- The external langchain/FAISS collaborators used by `RubyRAG`
(src/utiles/rag_utiles.py): the PDF and text loaders, the recursive
character splitter, and FAISS similarity search over an index.  They are
opaque pure functions; `RubyRAG` only composes them. -/
structure LangchainLib where
  loadPdf : String → String → List Document
  loadText : String → String → List Document
  split_documents : Nat → Nat → List Document → List Document
  similarity_search : List Document → String → Nat → List Document

/-- The file system as seen by the loaders: path to raw content. -/
abbrev Files := List (String × String)

/-- The durable storage behind `FAISS.save_local` / `FAISS.load_local`:
a map from storage location to the persisted index.  `save_local`
prepends, so `find?` sees the most recent save for a location. -/
abbrev Storage := List (String × VectorIndex)

/-- `os.path.exists(db_path)` followed by `FAISS.load_local` in
`RubyRAG.__init__`: the persisted index at the location, if any. -/
def Storage.load (storage : Storage) (db_path : String) : Option VectorIndex :=
  (List.find? (fun p => p.1 == db_path) storage).map (fun p => p.2)

/-- `FAISS.save_local(db_path)`: persist the index at the location,
shadowing any previous save there. -/
def Storage.save (storage : Storage) (db_path : String) (v : VectorIndex) :
    Storage :=
  (db_path, v) :: storage

/-- The state of a `RubyRAG` instance (src/utiles/rag_utiles.py lines
30-54): the storage location, the splitter parameters and the optional
in-memory FAISS store.  The embedding-model handle is external state with
no influence on the claims. -/
structure RubyRAG where
  db_path : String
  chunk_size : Nat
  chunk_overlap : Nat
  vectorstore : Option VectorIndex
  deriving DecidableEq, Repr

/-- `RubyRAG.__init__(db_path, ...)` with the default splitter parameters
(chunk_size 600, chunk_overlap 80): if persisted state exists at
`db_path` it is loaded eagerly, otherwise the store starts empty
(`vectorstore = None`). -/
def RubyRAG.init (storage : Storage) (db_path : String) : RubyRAG :=
  { db_path := db_path
    chunk_size := 600
    chunk_overlap := 80
    vectorstore := storage.load db_path }

/-- `os.path.splitext(file_path)[-1].lower() == ".pdf"` deciding which
loader `_load_documents` uses: the path ends in the four characters
`.pdf` up to case. -/
def hasPdfExt (file_path : String) : Bool :=
  match file_path.data.reverse with
  | f :: d :: p :: dot :: _ =>
      (dot = '.') && (p.toLower = 'p') && (d.toLower = 'd') && (f.toLower = 'f')
  | _ => false

/-- `RubyRAG._load_documents(file_path)` (src/utiles/rag_utiles.py lines
57-77): load the file with the extension-selected loader and split it into
chunks.  A missing file makes the loader raise. -/
def RubyRAG.load_documents (lib : LangchainLib) (files : Files)
    (rag : RubyRAG) (file_path : String) : Except PyError (List Document) :=
  match List.find? (fun p => p.1 == file_path) files with
  | none => Except.error (PyError.runtimeError ("No such file: " ++ file_path))
  | some pc =>
    let docs := if hasPdfExt file_path then lib.loadPdf file_path pc.2
                else lib.loadText file_path pc.2
    Except.ok (lib.split_documents rag.chunk_size rag.chunk_overlap docs)

/-- `RubyRAG.add_documents(file_path)` (src/utiles/rag_utiles.py lines
79-97): load and split the file, build a new FAISS store from the chunks
if none exists or append them to the existing store, then synchronously
persist the updated store at `db_path` before returning. -/
def RubyRAG.add_documents (lib : LangchainLib) (files : Files)
    (rag : RubyRAG) (storage : Storage) (file_path : String) :
    Except PyError (RubyRAG × Storage) := do
  let docs ← rag.load_documents lib files file_path
  let vs := match rag.vectorstore with
    | none => VectorIndex.mk docs
    | some v => VectorIndex.mk (v.docs ++ docs)
  let rag2 := { rag with vectorstore := some vs }
  Except.ok (rag2, storage.save rag.db_path vs)

/-- `RubyRAG.query(query, k)` (src/utiles/rag_utiles.py lines 99-121):
raises `RuntimeError("No existing DB found.")` when no index is present;
otherwise retrieves the k most similar chunks and concatenates them into
one labeled context block, `[Context i]` heading each chunk in rank
order, sections separated by a `---` divider. -/
def RubyRAG.query (lib : LangchainLib) (rag : RubyRAG) (query : String)
    (k : Nat) : Except PyError String :=
  match rag.vectorstore with
  | none => Except.error (PyError.runtimeError "No existing DB found.")
  | some vs =>
    let docs := lib.similarity_search vs.docs query k
    let context := docs.enum.map
      (fun di => "[Context " ++ toString (di.1 + 1) ++ "]\n" ++ di.2.page_content)
    Except.ok (String.intercalate "\n\n---\n\n" context)

/-- A sequence of ingestions: `add_documents` folded over a list of file
paths, propagating any exception. -/
def ingestAll (lib : LangchainLib) (files : Files) (paths : List String)
    (rs : RubyRAG × Storage) : Except PyError (RubyRAG × Storage) :=
  match paths with
  | [] => Except.ok rs
  | p :: rest => do
    let rs2 ← RubyRAG.add_documents lib files rs.1 rs.2 p
    ingestAll lib files rest rs2

/-- Attribute lookup on the module `utiles.rag_utiles` as performed by
`toolbox.query_document` (src/utiles/toolbox.py line 30): the module
defines exactly one store class, named `RubyRAG`; any other attribute name
raises `AttributeError`.  A successful lookup would yield the class,
i.e. a constructor closing over the durable storage. -/
def ragUtilesGetattr (name : String) : Option (Storage → RubyRAG) :=
  if name = "RubyRAG" then some (fun storage => RubyRAG.init storage "ruby_rag/db")
  else none

/-- `str(e)` for the `AttributeError` raised by the lookup above; the
quote characters Python puts around the two names are elided. -/
def robiRagAttributeError : String :=
  "module utiles.rag_utiles has no attribute RobiRAG"

/-- `toolbox.query_document(query)` (src/utiles/toolbox.py lines 26-32):
`try: return rag_utiles.RobiRAG().query(query) except Exception as e:
return str(e)`.  The attribute accessed is `RobiRAG`, so the lookup
determines the entire behaviour. -/
def query_document (lib : LangchainLib) (storage : Storage) (query : String) :
    String :=
  match ragUtilesGetattr "RobiRAG" with
  | none => robiRagAttributeError
  | some mk =>
    match (mk storage).query lib query 3 with
    | Except.ok s => s
    | Except.error (PyError.keyError key) => key
    | Except.error (PyError.runtimeError msg) => msg

/-- A concrete langchain/FAISS collaborator for witnesses: text loading
yields one document per file, splitting is the identity, similarity
search returns the first k chunks. -/
def lib0 : LangchainLib :=
  { loadPdf := fun _ _ => []
    loadText := fun path content => [Document.mk content path]
    split_documents := fun _ _ docs => docs
    similarity_search := fun docs _ k => docs.take k }

/-- C5: the knowledge-query tool never delegates to the Knowledge Store.
Its body reads the attribute `RobiRAG` on `utiles.rag_utiles`, but the
module defines only `RubyRAG`; the `AttributeError` is caught by the
tool's blanket handler and its text is returned, for every query and
every store state.  The claim that the tool returns the store's formatted
context block is therefore contradicted by the code's own naming
(the module docstring's usage example constructs `RubyRAG`). -/
theorem C5_query_document_always_attribute_error (lib : LangchainLib)
    (storage : Storage) (query : String) :
    query_document lib storage query = robiRagAttributeError :=
  rfl

/-- C6: querying a Knowledge Store constructed at a location with no
persisted index (and with no ingestion performed) raises
`RuntimeError("No existing DB found.")` rather than returning an empty
result. -/
theorem C6_query_without_index_raises (storage : Storage) (db_path : String)
    (h : storage.load db_path = none) (lib : LangchainLib) (q : String)
    (k : Nat) :
    (RubyRAG.init storage db_path).query lib q k =
      Except.error (PyError.runtimeError "No existing DB found.") := by
  unfold RubyRAG.query RubyRAG.init
  simp [h]

/-- Witness for `C6_query_without_index_raises`: empty durable storage,
the location `non_existent_db` of rag_test.py's test case 4. -/
theorem C6_query_without_index_raises_witness :
    Storage.load [] "non_existent_db" = none ∧
    (RubyRAG.init [] "non_existent_db").query lib0 "Hello?" 3 =
      Except.error (PyError.runtimeError "No existing DB found.") :=
  ⟨rfl, C6_query_without_index_raises [] "non_existent_db" rfl lib0 "Hello?" 3⟩

/-- Saving an index at a location makes it the one loaded from there. -/
theorem Storage.load_save (storage : Storage) (path : String)
    (v : VectorIndex) : (storage.save path v).load path = some v := by
  simp [Storage.save, Storage.load, List.find?]

/-- A successful `add_documents` preserves the storage location and leaves
the persisted index at that location equal to the in-memory one. -/
theorem add_documents_syncs (lib : LangchainLib) (files : Files)
    (rag rag2 : RubyRAG) (storage storage2 : Storage) (p : String)
    (h : RubyRAG.add_documents lib files rag storage p =
      Except.ok (rag2, storage2)) :
    rag2.db_path = rag.db_path ∧
    storage2.load rag.db_path = rag2.vectorstore := by
  unfold RubyRAG.add_documents at h
  cases hl : rag.load_documents lib files p with
  | error e =>
      rw [hl] at h
      exact absurd h (by simp [Bind.bind, Except.bind])
  | ok docs =>
      rw [hl] at h
      simp only [Bind.bind, Except.bind, Except.ok.injEq, Prod.mk.injEq] at h
      obtain ⟨h1, h2⟩ := h
      subst h1
      subst h2
      exact ⟨rfl, Storage.load_save storage rag.db_path _⟩

/-- The reconciliation invariant — the store's location is fixed and the
persisted index there equals the in-memory one — is preserved by any
successful sequence of ingestions. -/
theorem ingestAll_syncs (lib : LangchainLib) (files : Files) (L : String) :
    ∀ (paths : List String) (rs rs2 : RubyRAG × Storage),
      rs.1.db_path = L →
      rs.2.load L = rs.1.vectorstore →
      ingestAll lib files paths rs = Except.ok rs2 →
      rs2.1.db_path = L ∧ rs2.2.load L = rs2.1.vectorstore := by
  intro paths
  induction paths with
  | nil =>
      intro rs rs2 h1 h2 h
      simp only [ingestAll, Except.ok.injEq] at h
      subst h
      exact ⟨h1, h2⟩
  | cons p rest ih =>
      intro rs rs2 h1 h2 h
      simp only [ingestAll] at h
      cases ha : RubyRAG.add_documents lib files rs.1 rs.2 p with
      | error e =>
          rw [ha] at h
          exact absurd h (by simp [Bind.bind, Except.bind])
      | ok rs1 =>
          rw [ha] at h
          simp only [Bind.bind, Except.bind] at h
          obtain ⟨hd, hs⟩ := add_documents_syncs lib files rs.1 rs1.1 rs.2 rs1.2 p
            (by rw [ha])
          exact ih rs1 rs2 (hd.trans h1) (h1 ▸ hs) h

/-- C9: for every sequence of successful ingestions into a Knowledge
Store constructed at location L, constructing a fresh store at L from the
resulting durable storage yields a store whose query result equals the
original in-memory store's result, for every query and every k — the
persist-then-reload round trip is stable. -/
theorem C9_persist_reload_round_trip (lib : LangchainLib) (files : Files)
    (storage : Storage) (L : String) (paths : List String) (rag1 : RubyRAG)
    (st1 : Storage)
    (h : ingestAll lib files paths (RubyRAG.init storage L, storage) =
      Except.ok (rag1, st1)) (q : String) (k : Nat) :
    (RubyRAG.init st1 L).query lib q k = rag1.query lib q k := by
  obtain ⟨_, hsync⟩ := ingestAll_syncs lib files L paths
    (RubyRAG.init storage L, storage) (rag1, st1) rfl rfl h
  have hv : (RubyRAG.init st1 L).vectorstore = rag1.vectorstore := by
    rw [← hsync]
    rfl
  unfold RubyRAG.query
  rw [hv]

/-- The concrete chunk, store state and durable storage produced by the
witness ingestion below. -/
def docW : Document := Document.mk "Ruby supports Tamil" "notes.txt"

/-- The in-memory store after ingesting `notes.txt` at `test_rag_db`. -/
def ragW : RubyRAG :=
  { db_path := "test_rag_db"
    chunk_size := 600
    chunk_overlap := 80
    vectorstore := some (VectorIndex.mk [docW]) }

/-- The durable storage after that ingestion. -/
def stW : Storage := [("test_rag_db", VectorIndex.mk [docW])]

/-- Witness for `C9_persist_reload_round_trip`: one successful ingestion
of a text file, then a query of the reloaded store. -/
theorem C9_persist_reload_round_trip_witness :
    ingestAll lib0 [("notes.txt", "Ruby supports Tamil")] ["notes.txt"]
        (RubyRAG.init [] "test_rag_db", []) = Except.ok (ragW, stW) ∧
    (RubyRAG.init stW "test_rag_db").query lib0 "languages" 3 =
      ragW.query lib0 "languages" 3 :=
  ⟨rfl,
   C9_persist_reload_round_trip lib0 [("notes.txt", "Ruby supports Tamil")]
     [] "test_rag_db" ["notes.txt"] ragW stW rfl "languages" 3⟩

/-- The expressions Python's unrestricted `eval` accepts in
`toolbox.calculator`: beyond numeric arithmetic (`+ - * //` and
parenthesisation, which is implicit in the tree), an expression may be an
arbitrary call — attribute access, `__import__`, `os.system`, … — that
performs a side effect and yields a value.  The `call` constructor
records the operation text; its presence is exactly what a calculator
restricted to a safe arithmetic grammar would reject. -/
inductive PyExpr where
  | num (n : Int)
  | add (a b : PyExpr)
  | sub (a b : PyExpr)
  | mul (a b : PyExpr)
  | floordiv (a b : PyExpr)
  | call (operation : String) (value : Int)
  deriving DecidableEq, Repr

/-- Left-to-right evaluation of a Python binary operation: the effects of
the left operand happen first; an exception in the left operand prevents
evaluation of the right one. -/
def pyBin (f : Int → Int → Except String Int)
    (ea eb : List String × Except String Int) :
    List String × Except String Int :=
  match ea with
  | (fx, Except.error e) => (fx, Except.error e)
  | (fx, Except.ok va) =>
    match eb with
    | (fy, Except.error e) => (fx ++ fy, Except.error e)
    | (fy, Except.ok vb) => (fx ++ fy, f va vb)

/-- Python `eval` over the embedded expression fragment: the list of side
effects performed (the operation texts of the calls evaluated, in order)
together with the resulting value or the exception text. -/
def pyEval : PyExpr → List String × Except String Int
  | PyExpr.num n => ([], Except.ok n)
  | PyExpr.add a b => pyBin (fun x y => Except.ok (x + y)) (pyEval a) (pyEval b)
  | PyExpr.sub a b => pyBin (fun x y => Except.ok (x - y)) (pyEval a) (pyEval b)
  | PyExpr.mul a b => pyBin (fun x y => Except.ok (x * y)) (pyEval a) (pyEval b)
  | PyExpr.floordiv a b =>
      pyBin (fun x y =>
          if y = 0 then Except.error "integer division or modulo by zero"
          else Except.ok (Int.fdiv x y))
        (pyEval a) (pyEval b)
  | PyExpr.call op v => ([op], Except.ok v)

/-- `toolbox.calculator(query)` (src/utiles/toolbox.py lines 6-13):
`try: return str(eval(query)) except Exception as e: return str(e)` —
the text result paired with the side effects `eval` performed. -/
def calculator (query : PyExpr) : String × List String :=
  match pyEval query with
  | (fx, Except.ok v) => (toString v, fx)
  | (fx, Except.error e) => (e, fx)

/-- The safe arithmetic grammar of the specification: numbers and
`+ - * //` only, no calls. -/
def PyExpr.isArith : PyExpr → Bool
  | PyExpr.num _ => true
  | PyExpr.add a b => a.isArith && b.isArith
  | PyExpr.sub a b => a.isArith && b.isArith
  | PyExpr.mul a b => a.isArith && b.isArith
  | PyExpr.floordiv a b => a.isArith && b.isArith
  | PyExpr.call _ _ => false

/-- `pyBin` produces no effects when neither operand does. -/
theorem pyBin_no_effects (f : Int → Int → Except String Int)
    (ea eb : List String × Except String Int)
    (ha : ea.1 = []) (hb : eb.1 = []) : (pyBin f ea eb).1 = [] := by
  rcases ea with ⟨fa, ra⟩
  rcases eb with ⟨fb, rb⟩
  simp only at ha hb
  subst ha
  subst hb
  cases ra <;> cases rb <;> rfl

/-- Evaluating a pure arithmetic expression performs no side effects. -/
theorem pyEval_arith_no_effects (e : PyExpr) (h : e.isArith = true) :
    (pyEval e).1 = [] := by
  induction e with
  | num n => rfl
  | add a b iha ihb =>
      simp only [PyExpr.isArith, Bool.and_eq_true] at h
      exact pyBin_no_effects _ _ _ (iha h.1) (ihb h.2)
  | sub a b iha ihb =>
      simp only [PyExpr.isArith, Bool.and_eq_true] at h
      exact pyBin_no_effects _ _ _ (iha h.1) (ihb h.2)
  | mul a b iha ihb =>
      simp only [PyExpr.isArith, Bool.and_eq_true] at h
      exact pyBin_no_effects _ _ _ (iha h.1) (ihb h.2)
  | floordiv a b iha ihb =>
      simp only [PyExpr.isArith, Bool.and_eq_true] at h
      exact pyBin_no_effects _ _ _ (iha h.1) (ihb h.2)
  | call op v => simp [PyExpr.isArith] at h

/-- C8 (counterexample): the arithmetic-evaluator capability evaluates an
arbitrary call expression — here a stand-in for
`__import__(os).system(...)` — performing its side effect and returning
its value as text, refuting the claim that it is not capable of executing
operations outside numeric expression evaluation. -/
theorem C8_eval_arbitrary_counterexample :
    (calculator (PyExpr.call "__import__(os).system(...)" 0)).2 =
      ["__import__(os).system(...)"] ∧
    (["__import__(os).system(...)"] : List String) ≠ [] ∧
    (calculator (PyExpr.call "__import__(os).system(...)" 0)).1 = "0" :=
  ⟨rfl, by decide, rfl⟩

/-- C8 (amended): for every input expression the capability returns the
evaluated value as text or the exception text on failure; on input inside
the safe arithmetic grammar it performs no operation beyond numeric
evaluation; but because it applies unrestricted `eval`, it is capable of
executing arbitrary operations when handed a non-arithmetic expression. -/
theorem C8_calculator_contract (e arith : PyExpr) (h : arith.isArith = true) :
    ((∃ v : Int, (pyEval e).2 = Except.ok v ∧ (calculator e).1 = toString v) ∨
     (∃ msg : String, (pyEval e).2 = Except.error msg ∧ (calculator e).1 = msg)) ∧
    (calculator arith).2 = [] ∧
    (∃ e2 : PyExpr, (calculator e2).2 ≠ []) := by
  refine ⟨?_, ?_, ?_⟩
  · rcases hv : pyEval e with ⟨fx, r⟩
    cases r with
    | ok v =>
        refine Or.inl ⟨v, rfl, ?_⟩
        unfold calculator
        rw [hv]
    | error msg =>
        refine Or.inr ⟨msg, rfl, ?_⟩
        unfold calculator
        rw [hv]

  · have := pyEval_arith_no_effects arith h
    unfold calculator
    rcases hv : pyEval arith with ⟨fx, r⟩
    rw [hv] at this
    simp only at this
    subst this
    cases r <;> rfl
  · exact ⟨PyExpr.call "__import__(os).system(...)" 0, by decide⟩

/-- Witness for `C8_calculator_contract` at the failing arithmetic input
`1 // 0` and the pure arithmetic input `2 + 3`. -/
theorem C8_calculator_contract_witness :
    ((∃ v : Int,
        (pyEval (PyExpr.floordiv (PyExpr.num 1) (PyExpr.num 0))).2 = Except.ok v ∧
        (calculator (PyExpr.floordiv (PyExpr.num 1) (PyExpr.num 0))).1 = toString v) ∨
     (∃ msg : String,
        (pyEval (PyExpr.floordiv (PyExpr.num 1) (PyExpr.num 0))).2 = Except.error msg ∧
        (calculator (PyExpr.floordiv (PyExpr.num 1) (PyExpr.num 0))).1 = msg)) ∧
    (calculator (PyExpr.add (PyExpr.num 2) (PyExpr.num 3))).2 = [] ∧
    (∃ e2 : PyExpr, (calculator e2).2 ≠ []) :=
  C8_calculator_contract (PyExpr.floordiv (PyExpr.num 1) (PyExpr.num 0))
    (PyExpr.add (PyExpr.num 2) (PyExpr.num 3)) (by decide)

end RubyBot
